import Mathlib

/-!
Shallow embedding of the retrieval-augmented chat pipeline of
karthikdatta98/personalized_credit_notifier, file src/main.py.

External collaborators (the OpenAI client construction, the embedding call,
the Astra DB collection handle, the vector-search call, and the chat
completion call) are modelled as oracle fields of an environment record:
each field records the outcome the external service would deliver on this
pipeline invocation.  The control flow of the Python code is translated
branch by branch; a CallLog value records which external calls the
pipeline actually performed, so that short-circuit properties are statable.
-/

namespace CreditNotifier

/-- A knowledge-base record as returned by the vector store.  The Python
code reads documents as dicts via doc.get("content", "") and filters on
the "brand" field, so both fields are optional. -/
structure Document where
  content : Option String
  brand : Option String
deriving DecidableEq

/-- Python doc.get("content", "") : the content field of a document with a
missing field read as the empty string (src/main.py lines 161, 488). -/
def docContent (d : Document) : String := d.content.getD ""

/-- Python sep.join(parts) : concatenation of the parts with exactly one
separator between consecutive entries. -/
def joinSep (sep : String) : List String → String
  | [] => ""
  | [x] => x
  | x :: y :: xs => x ++ sep ++ joinSep sep (y :: xs)

/-- Context assembly, src/main.py lines 161 and 488:
"\n\n".join([doc.get("content", "") for doc in documents]). -/
def assembleContext (documents : List Document) : String :=
  joinSep "\n\n" (documents.map docContent)

/-- Message shown when get_openai_client yields no client
(src/main.py line 462). -/
def apiConfigMsg : String :=
  "I\x27m having trouble connecting to my knowledge base. Please check the API configuration."

/-- Message shown when get_astra_collection yields no collection
(src/main.py line 476). -/
def dbConfigMsg : String :=
  "I\x27m having trouble connecting to my knowledge base. Please check the database configuration."

/-- Message shown when the vector search returns no documents
(src/main.py line 485). -/
def noRelevantInfoMsg : String :=
  "I couldn\x27t find any relevant information for your question in my database."

/-- Message produced by the except-branch of the chat pipeline
(src/main.py line 516). -/
def processingErrorMsg : String :=
  "I encountered an error while processing your request. Please try again later."

/-- Message returned by generate_answer when the client is missing or the
document sequence is empty (src/main.py line 158). -/
def serviceIssueMsg : String :=
  "I couldn\x27t find relevant information or there was an issue with the service."

/-- Message returned by generate_answer when the completion call raises
(src/main.py line 190). -/
def generationIssueMsg : String :=
  "I encountered an issue while generating a response. Please try again."

/-- The user prompt template of generate_answer (src/main.py lines 164-174). -/
def generatePrompt (context query : String) : String :=
  "\nYou are an AI assistant helping users find information about credit card offers and rewards.\nAnswer the user\x27s question using ONLY the following information from the database:\n\n"
    ++ context
    ++ "\n\nIf the information needed to answer the question is not in the provided context, say \"I don\x27t have that information in my database.\"\nBe concise and helpful. Format any offers nicely.\n\nUser question: "
    ++ query ++ "\n"

/-- The 44-space indentation carried by the f-string literal of the inline
prompt (src/main.py lines 491-501). -/
def promptIndent : String := "                                            "

/-- The user prompt template built inline in brand_selection_page
(src/main.py lines 491-501), indentation of the literal included. -/
def inlinePrompt (context user_query : String) : String :=
  "\n" ++ promptIndent ++ "You are an AI assistant helping users find information about credit card offers and rewards.\n"
    ++ promptIndent ++ "Answer the user\x27s question using ONLY the following information from the database:\n\n"
    ++ promptIndent ++ context
    ++ "\n\n" ++ promptIndent ++ "If the information needed to answer the question is not in the provided context, say \"I don\x27t have that information in my database.\"\n"
    ++ promptIndent ++ "Be concise and helpful. Format any offers nicely.\n\n"
    ++ promptIndent ++ "User question: " ++ user_query ++ "\n" ++ promptIndent

/-- Oracle environment for one chat-pipeline invocation.
openaiKey: whether get_openai_client returns a client (OPENAI_API_KEY set);
embedOutcome: outcome of client.embeddings.create (error = the call raises);
astraOk: whether get_astra_collection returns a collection;
findOutcome: outcome of collection.find (error = the call raises);
complete: outcome of client.chat.completions.create on a given prompt
(error = the call raises). -/
structure ChatEnv where
  openaiKey : Bool
  embedOutcome : Except Unit (List Float)
  astraOk : Bool
  findOutcome : Except Unit (List Document)
  complete : String → Except Unit String

/-- Which external calls one pipeline invocation performed. -/
structure CallLog where
  embedCalled : Bool
  searchCalled : Bool
  generateCalled : Bool
deriving DecidableEq

/-- The chat pipeline inlined in brand_selection_page, src/main.py lines
459-516: get client, embed the query, get the collection, vector search,
then one completion call; a raise anywhere inside the try block falls to
the except branch at line 514. -/
def chatPipeline (env : ChatEnv) (user_query : String) : String × CallLog :=
  if env.openaiKey = false then
    (apiConfigMsg, ⟨false, false, false⟩)
  else
    match env.embedOutcome with
    | Except.error _ => (processingErrorMsg, ⟨true, false, false⟩)
    | Except.ok _query_embedding =>
      if env.astraOk = false then
        (dbConfigMsg, ⟨true, false, false⟩)
      else
        match env.findOutcome with
        | Except.error _ => (processingErrorMsg, ⟨true, true, false⟩)
        | Except.ok results =>
          if results.isEmpty then
            (noRelevantInfoMsg, ⟨true, true, false⟩)
          else
            let context := assembleContext results
            let prompt := inlinePrompt context user_query
            match env.complete prompt with
            | Except.error _ => (processingErrorMsg, ⟨true, true, true⟩)
            | Except.ok text => (text, ⟨true, true, true⟩)

/-- One entry of st.session_state.chat_history: a dict with "role" and
"content" keys (src/main.py lines 448, 522). -/
structure ChatTurn where
  role : String
  content : String
deriving DecidableEq

/-- One chat invocation of brand_selection_page acting on the session
history: the user turn is appended at line 448, the pipeline runs, and the
assistant turn is appended at line 522.  Returns the new history and the
response. -/
def chatInvocation (env : ChatEnv) (history : List ChatTurn) (user_query : String) :
    List ChatTurn × String :=
  let hist1 := history ++ [⟨"user", user_query⟩]
  let response := (chatPipeline env user_query).1
  (hist1 ++ [⟨"assistant", response⟩], response)

/-- generate_answer, src/main.py lines 154-190.  The Bool records whether
the completion call was made. -/
def generate_answer (env : ChatEnv) (query : String) (documents : List Document) :
    String × Bool :=
  if env.openaiKey = false || documents.isEmpty then
    (serviceIssueMsg, false)
  else
    let context := assembleContext documents
    let prompt := generatePrompt context query
    match env.complete prompt with
    | Except.error _ => (generationIssueMsg, true)
    | Except.ok text => (text, true)

/-- Oracle environment for retrieve_documents.  The store field is a stub
of the external Astra collection: the full, similarity-ranked candidate
list the store would deliver for this query vector (the ranking itself is
opaque and owned by the store); findRaises records whether collection.find
raises. -/
structure RetrieveEnv where
  openaiKey : Bool
  embedOutcome : Except Unit (List Float)
  astraOk : Bool
  findRaises : Bool
  store : List Document

/-- get_query_embedding, src/main.py lines 110-124: None when the client
is missing or the embedding call raises, the embedding otherwise. -/
def get_query_embedding (env : RetrieveEnv) (_query : String) : Option (List Float) :=
  if env.openaiKey = false then none
  else
    match env.embedOutcome with
    | Except.error _ => none
    | Except.ok emb => some emb

/-- Whether a document passes the filter condition
filter = none | some bs ~ Python None | with brand-in-bs semantics of the
Astra Data API operator applied at the "brand" field: a document matches
when its brand field is present and is a member of the list. -/
def brandMatches (filt : Option (List String)) (d : Document) : Bool :=
  match filt with
  | none => true
  | some bs =>
    match d.brand with
    | some b => bs.contains b
    | none => false

/-- Stub model of collection.find(filter=..., sort=vector, limit=k)
(src/main.py lines 143-147): the store applies the brand filter to its
similarity-ranked candidate list and returns at most limit documents. -/
def astraFind (store : List Document) (filt : Option (List String)) (lim : Nat) :
    List Document :=
  (store.filter (brandMatches filt)).take lim

/-- retrieve_documents, src/main.py lines 126-152.  Each guard mirrors one
Python early return: missing collection, falsy embedding (None or empty),
or a raising find all return the empty list.  The Python brands default is
None, modelled by the Option default; the trailing results-if-results-else
branch is the identity on lists. -/
def retrieve_documents (env : RetrieveEnv) (query : String)
    (brands : Option (List String) := none) (top_k : Nat := 5) : List Document :=
  if env.astraOk = false then []
  else
    match get_query_embedding env query with
    | none => []
    | some query_embedding =>
      if query_embedding.isEmpty then []
      else if env.findRaises then []
      else
        let filter_condition : Option (List String) :=
          match brands with
          | some bs => if 0 < bs.length then some bs else none
          | none => none
        astraFind env.store filter_condition top_k

/-! Concrete environments and inputs used by the witness theorems. -/

/-- The one-document store of end-to-end scenario 1 of the spec. -/
def docDining : Document := ⟨some "Dine card: 3x points at restaurants", some "dining"⟩

/-- A second concrete document with a different brand label. -/
def docAdobe : Document := ⟨some "Adobe: 10 percent back", some "Adobe"⟩

/-- A concrete document carrying the Starbucks brand label. -/
def docStarbucks : Document := ⟨some "Starbucks: 5x stars", some "Starbucks"⟩

/-- A concrete embedding vector. -/
def embW : List Float := [1.0]

/-- A concrete query string. -/
def qW : String := "best dining offer"

/-- Chat environment in which every call succeeds and the vector search
returns the empty sequence. -/
def envEmptyFind : ChatEnv :=
  ⟨true, Except.ok embW, true, Except.ok [], fun _ => Except.ok "unreached"⟩

/-- Chat environment with no OpenAI client available. -/
def envNoKey : ChatEnv :=
  ⟨false, Except.ok embW, true, Except.ok [docDining], fun _ => Except.ok "unreached"⟩

/-- Chat environment in which the search succeeds with one document and
every completion call raises. -/
def envGenFail : ChatEnv :=
  ⟨true, Except.ok embW, true, Except.ok [docDining], fun _ => Except.error ()⟩

/-- Retrieval environment whose Astra connection is down. -/
def envAstraDown : RetrieveEnv :=
  ⟨true, Except.ok embW, false, false, [docDining]⟩

/-- Retrieval environment in which every call succeeds, over a store with
mixed brand labels. -/
def envStoreW : RetrieveEnv :=
  ⟨true, Except.ok embW, true, false, [docStarbucks, docAdobe, docDining]⟩

/-- Retrieval environment in which every call succeeds and the store holds
no documents. -/
def envEmptyStore : RetrieveEnv :=
  ⟨true, Except.ok embW, true, false, []⟩

/-! Helper lemmas shared by several claims. -/

theorem joinSep_cons_cons (sep x y : String) (xs : List String) :
    joinSep sep (x :: y :: xs) = x ++ sep ++ joinSep sep (y :: xs) := rfl

theorem joinSep_length (sep : String) (L : List String) :
    (joinSep sep L).length = (L.map String.length).sum + sep.length * (L.length - 1) := by
  induction L with
  | nil => simp [joinSep]
  | cons x xs ih =>
    cases xs with
    | nil => simp [joinSep]
    | cons y ys =>
      rw [joinSep_cons_cons, String.length_append, String.length_append, ih]
      simp only [List.map_cons, List.sum_cons, List.length_cons, Nat.add_sub_cancel]
      ring

theorem filter_brandMatches_none (l : List Document) :
    l.filter (brandMatches none) = l := by
  induction l with
  | nil => rfl
  | cons d ds ih => simp [List.filter_cons, brandMatches, ih]

theorem astraFind_length_le (store : List Document) (filt : Option (List String))
    (lim : Nat) : (astraFind store filt lim).length ≤ lim := by
  simp only [astraFind, List.length_take]
  omega

/-- C7: assembling an empty document sequence yields the empty Context:
the blank-line join of no content fields is the empty string. -/
theorem assemble_empty_is_empty : assembleContext [] = "" := rfl

/-- C2: context assembly preserves the order of the document sequence
(head content first, then exactly one blank-line separator, then the
assembly of the tail), a single document contributes exactly its content
(missing content read as the empty string by docContent), and the length
of the assembled Context is exactly the sum of the content lengths plus
two characters per consecutive pair, so every content field enters exactly
once with exactly one blank line between consecutive entries and no
re-sorting. -/
theorem context_assembly_order_and_separators (d : Document) (ds D : List Document)
    (hne : ds ≠ []) :
    assembleContext (d :: ds) = docContent d ++ "\n\n" ++ assembleContext ds
    ∧ assembleContext [d] = docContent d
    ∧ (assembleContext D).length
        = ((D.map docContent).map String.length).sum + 2 * (D.length - 1) := by
  refine ⟨?_, rfl, ?_⟩
  · cases ds with
    | nil => exact absurd rfl hne
    | cons y ys => rfl
  · have h := joinSep_length "\n\n" (D.map docContent)
    have h2 : ("\n\n" : String).length = 2 := rfl
    rw [h2, List.length_map] at h
    exact h

/-- Witness for C2 at concrete two-document and one-document sequences. -/
theorem context_assembly_order_and_separators_witness :
    assembleContext [docDining, docAdobe]
        = docContent docDining ++ "\n\n" ++ assembleContext [docAdobe]
    ∧ assembleContext [docDining] = docContent docDining
    ∧ (assembleContext [docStarbucks, docAdobe]).length
        = (([docStarbucks, docAdobe].map docContent).map String.length).sum
            + 2 * (([docStarbucks, docAdobe] : List Document).length - 1) :=
  context_assembly_order_and_separators docDining [docAdobe] [docStarbucks, docAdobe]
    (List.cons_ne_nil _ _)

/-- C6: the conversation history is append-only: one chat invocation
returns exactly the old history followed by the user turn carrying the
query and then the assistant turn carrying the produced answer; the old
turns survive unchanged in place and the length grows by exactly two. -/
theorem chat_history_append_only (env : ChatEnv) (history : List ChatTurn) (q : String) :
    (chatInvocation env history q).1
      = history ++ [⟨"user", q⟩, ⟨"assistant", (chatPipeline env q).1⟩]
    ∧ (chatInvocation env history q).1.take history.length = history
    ∧ (chatInvocation env history q).1.length = history.length + 2 := by
  refine ⟨?_, ?_, ?_⟩
  · simp [chatInvocation]
  · simp only [chatInvocation, List.append_assoc]
    exact List.take_left history _
  · simp [chatInvocation]

/-- C1: when the client, the embedding call and the collection all succeed
and the vector search returns the empty document sequence, the pipeline
returns the fixed no-relevant-information message and the completion
service is never called. -/
theorem empty_search_skips_generation (env : ChatEnv) (q : String) (emb : List Float)
    (hk : env.openaiKey = true) (he : env.embedOutcome = Except.ok emb)
    (ha : env.astraOk = true) (hf : env.findOutcome = Except.ok []) :
    (chatPipeline env q).1 = noRelevantInfoMsg
    ∧ (chatPipeline env q).2.generateCalled = false := by
  simp [chatPipeline, hk, he, ha, hf]

/-- Witness for C1 on a concrete successful environment with an empty
search result. -/
theorem empty_search_skips_generation_witness :
    (chatPipeline envEmptyFind qW).1 = noRelevantInfoMsg
    ∧ (chatPipeline envEmptyFind qW).2.generateCalled = false :=
  empty_search_skips_generation envEmptyFind qW embW rfl rfl rfl rfl

/-- C4: when the embedding stage fails — the client is missing or the
embedding call raises — the vector search and the completion service are
never invoked and the pipeline aborts with one of the two fixed abort
messages. -/
theorem embed_failure_short_circuits (env : ChatEnv) (q : String)
    (h : env.openaiKey = false ∨ env.embedOutcome = Except.error ()) :
    (chatPipeline env q).2.searchCalled = false
    ∧ (chatPipeline env q).2.generateCalled = false
    ∧ ((chatPipeline env q).1 = apiConfigMsg
        ∨ (chatPipeline env q).1 = processingErrorMsg) := by
  rcases h with h | h
  · simp [chatPipeline, h]
  · cases hk : env.openaiKey
    · simp [chatPipeline, hk]
    · simp [chatPipeline, hk, h]

/-- Witness for C4 on a concrete environment with no client available. -/
theorem embed_failure_short_circuits_witness :
    (chatPipeline envNoKey qW).2.searchCalled = false
    ∧ (chatPipeline envNoKey qW).2.generateCalled = false
    ∧ ((chatPipeline envNoKey qW).1 = apiConfigMsg
        ∨ (chatPipeline envNoKey qW).1 = processingErrorMsg) :=
  embed_failure_short_circuits envNoKey qW (Or.inl rfl)

/-- C3: when every completion call fails, generate_answer still returns a
fixed fallback string (one of its two fixed messages), and the chat
pipeline run on an otherwise successful environment returns its fixed
processing-error string: the generation stage never propagates a failure
past the pipeline boundary. -/
theorem generation_failure_yields_fallback (env : ChatEnv) (q : String)
    (docs : List Document) (emb : List Float) (results : List Document)
    (hfail : ∀ p, env.complete p = Except.error ())
    (hk : env.openaiKey = true) (he : env.embedOutcome = Except.ok emb)
    (ha : env.astraOk = true) (hf : env.findOutcome = Except.ok results)
    (hr : results ≠ []) :
    ((generate_answer env q docs).1 = serviceIssueMsg
      ∨ (generate_answer env q docs).1 = generationIssueMsg)
    ∧ (chatPipeline env q).1 = processingErrorMsg := by
  constructor
  · by_cases hd : env.openaiKey = false ∨ docs = []
    · left
      simp [generate_answer, hd]
    · right
      simp [generate_answer, hd, hfail]
  · simp [chatPipeline, hk, he, ha, hf, hr, hfail]

/-- Witness for C3 on a concrete environment whose completion call always
raises while search returns one document. -/
theorem generation_failure_yields_fallback_witness :
    ((generate_answer envGenFail qW [docDining]).1 = serviceIssueMsg
      ∨ (generate_answer envGenFail qW [docDining]).1 = generationIssueMsg)
    ∧ (chatPipeline envGenFail qW).1 = processingErrorMsg :=
  generation_failure_yields_fallback envGenFail qW [docDining] embW [docDining]
    (fun _ => rfl) rfl rfl rfl rfl (List.cons_ne_nil _ _)

/-- C10: generate_answer guards the empty case itself: with an empty
document sequence or no client it returns its fixed service-issue message
without calling the completion service, and that message differs from the
fixed no-relevant-information message of the pipeline. -/
theorem generate_answer_empty_guard (env : ChatEnv) (q : String) (docs : List Document)
    (h : docs = [] ∨ env.openaiKey = false) :
    generate_answer env q docs = (serviceIssueMsg, false)
    ∧ serviceIssueMsg ≠ noRelevantInfoMsg := by
  constructor
  · rcases h with h | h <;> simp [generate_answer, h]
  · decide

/-- Witness for C10 at the empty document sequence. -/
theorem generate_answer_empty_guard_witness :
    generate_answer envEmptyFind qW [] = (serviceIssueMsg, false)
    ∧ serviceIssueMsg ≠ noRelevantInfoMsg :=
  generate_answer_empty_guard envEmptyFind qW [] (Or.inl rfl)

/-- C5: on a successful retrieval, a non-empty brand filter set is
forwarded verbatim to the store as the brand membership filter: the result
is exactly the brand-filtered ranked store truncated at the limit and
every returned document passes the brand membership test; with an absent
filter set (Python brands=None) or an empty one (Python brands=[], falsy,
so filter_condition stays empty and find receives filter None) no label
filter is applied and the untruncated ranked store is used. -/
theorem brand_filter_forwarded (env : RetrieveEnv) (q : String)
    (bs : List String) (k : Nat) (emb : List Float)
    (hne : bs ≠ []) (ha : env.astraOk = true) (hk : env.openaiKey = true)
    (he : env.embedOutcome = Except.ok emb) (hemb : emb ≠ [])
    (hfr : env.findRaises = false) :
    retrieve_documents env q (some bs) k
        = (env.store.filter (brandMatches (some bs))).take k
    ∧ (retrieve_documents env q (some bs) k).all (brandMatches (some bs)) = true
    ∧ retrieve_documents env q none k = env.store.take k
    ∧ retrieve_documents env q (some []) k = env.store.take k := by
  have hlen : 0 < bs.length := List.length_pos.mpr hne
  have hie : emb.isEmpty = false := List.isEmpty_eq_false.mpr hemb
  have hmain : retrieve_documents env q (some bs) k
      = (env.store.filter (brandMatches (some bs))).take k := by
    simp [retrieve_documents, get_query_embedding, hk, he, ha, hfr, hie, hlen, astraFind]
  refine ⟨hmain, ?_, ?_, ?_⟩
  · rw [hmain]
    apply List.all_eq_true.mpr
    intro d hd
    exact (List.mem_filter.mp (List.mem_of_mem_take hd)).2
  · simp [retrieve_documents, get_query_embedding, hk, he, ha, hfr, hie, astraFind,
      filter_brandMatches_none]
  · simp [retrieve_documents, get_query_embedding, hk, he, ha, hfr, hie, astraFind,
      filter_brandMatches_none]

/-- Witness for C5 with the filter set holding exactly "Starbucks" over a
concrete mixed-brand store, the absent filter set, and the empty filter
set. -/
theorem brand_filter_forwarded_witness :
    retrieve_documents envStoreW qW (some ["Starbucks"]) 5
        = (envStoreW.store.filter (brandMatches (some ["Starbucks"]))).take 5
    ∧ (retrieve_documents envStoreW qW (some ["Starbucks"]) 5).all
        (brandMatches (some ["Starbucks"])) = true
    ∧ retrieve_documents envStoreW qW none 5 = envStoreW.store.take 5
    ∧ retrieve_documents envStoreW qW (some []) 5 = envStoreW.store.take 5 :=
  brand_filter_forwarded envStoreW qW ["Starbucks"] 5 embW (List.cons_ne_nil _ _)
    rfl rfl rfl (List.cons_ne_nil _ _) rfl

/-- C8: the search result count is bounded by the limit parameter for
every environment, query, filter set and limit, and the default limit of
retrieve_documents is 5, so the defaulted call is bounded by 5; the empty
list is an ordinary value of the same type, not an error. -/
theorem search_result_bounded_by_limit (env : RetrieveEnv) (q : String)
    (brands : Option (List String)) (k : Nat) :
    (retrieve_documents env q brands k).length ≤ k
    ∧ (retrieve_documents env q brands).length ≤ 5 := by
  have hbound : ∀ m : Nat, (retrieve_documents env q brands m).length ≤ m := by
    intro m
    simp only [retrieve_documents]
    split
    · simp
    · split
      · simp
      · split
        · simp
        · split
          · simp
          · exact astraFind_length_le _ _ _
  exact ⟨hbound k, hbound 5⟩

/-- C9: retrieve_documents is total and converts every failure — missing
client, missing Astra collection, raising embedding call, or raising find
call — into the empty list, the same value a successful search over an
empty store returns, so the caller cannot distinguish failure from no
matches. -/
theorem retrieve_documents_failures_yield_empty (env env2 : RetrieveEnv) (q : String)
    (brands : Option (List String)) (k : Nat) (emb : List Float)
    (h : env.openaiKey = false ∨ env.astraOk = false
        ∨ env.embedOutcome = Except.error () ∨ env.findRaises = true)
    (h2a : env2.astraOk = true) (h2k : env2.openaiKey = true)
    (h2e : env2.embedOutcome = Except.ok emb) (hemb : emb ≠ [])
    (h2f : env2.findRaises = false) (h2s : env2.store = []) :
    retrieve_documents env q brands k = []
    ∧ retrieve_documents env2 q brands k = [] := by
  have hie : emb.isEmpty = false := List.isEmpty_eq_false.mpr hemb
  constructor
  · rcases h with h | h | h | h
    · cases hA : env.astraOk <;>
        simp [retrieve_documents, get_query_embedding, h, hA]
    · simp [retrieve_documents, h]
    · cases hA : env.astraOk <;> cases hK : env.openaiKey <;>
        simp [retrieve_documents, get_query_embedding, h, hA, hK]
    · cases hA : env.astraOk
      · simp [retrieve_documents, hA]
      · cases hK : env.openaiKey
        · simp [retrieve_documents, get_query_embedding, hA, hK]
        · cases hE : env.embedOutcome with
          | error e => simp [retrieve_documents, get_query_embedding, hA, hK, hE]
          | ok v =>
            cases hv : v.isEmpty <;>
              simp [retrieve_documents, get_query_embedding, astraFind, hA, hK, hE, hv, h]
  · simp [retrieve_documents, get_query_embedding, h2a, h2k, h2e, h2f, hie, astraFind, h2s]

/-- Witness for C9: a downed Astra connection and a successful search over
an empty store both return the empty list. -/
theorem retrieve_documents_failures_yield_empty_witness :
    retrieve_documents envAstraDown qW none 5 = []
    ∧ retrieve_documents envEmptyStore qW none 5 = [] :=
  retrieve_documents_failures_yield_empty envAstraDown envEmptyStore qW none 5 embW
    (Or.inr (Or.inl rfl)) rfl rfl rfl (List.cons_ne_nil _ _) rfl rfl

end CreditNotifier
